import Mathlib

/-!
Verification of the token-lifecycle core of the fluffy-doodle repository
(`src/fluffy/apps/oauth/views.py`): token issuance (`generate_jwt`), the three
session-controller views (`login`, `logout`, `refresh_token`), and the claims
codec they delegate to.

Modelling conventions:
- Timestamps are `Int` (seconds). A request is handled at a single instant
  `now`, passed explicitly where the source calls `datetime.datetime.utcnow()`.
- The JWT wire format is opaque (spec section 3: a token is "an opaque signed
  string"), and the PyJWT codec is an external library, so Python strings are
  modelled symbolically: a string is either a structurally parsed signed token
  or an unstructured raw string, and a signature is a symbolic MAC term
  (collision-free by construction), in the Dolev-Yao style.
- The external Django credential store (`authenticate`, `User.objects.get`)
  is modelled from the spec as a finite list of stored users.
- Each view returns `Except PyError HttpResponse` - an uncaught Python
  exception is `Except.error` - paired with the number of credential-store
  operations the request performed, so that "no identity lookup is attempted"
  is a provable statement.
-/

namespace Fluffy

/-- A row of the external credential store: Django `User` restricted to the
fields the core reads (`id`, `username`) plus the password it authenticates
against. -/
structure StoredUser where
  id : Int
  username : String
  password : String
deriving DecidableEq, Repr

/-- The token payload built by `generate_jwt` in
`src/fluffy/apps/oauth/views.py`: `user_id`, `username`, `exp`. -/
structure Claims where
  user_id : Int
  username : String
  exp : Int
deriving DecidableEq, Repr

/-- Symbolic MAC value: the signature a holder of `key` computes over a
payload. Two signatures are equal exactly when key and payload agree, the
ideal-MAC (Dolev-Yao) reading of HMAC-SHA256. -/
structure Sig where
  key : String
  payload : Claims
deriving DecidableEq, Repr

/-- Signing: produce the symbolic MAC of `payload` under `key`. -/
def sign (key : String) (payload : Claims) : Sig :=
  ⟨key, payload⟩

/-- Model of a Python string flowing through the views: either a structurally
well-formed signed token (header algorithm, payload, signature) or any other
string. Modelled from the spec: the token wire format is opaque, so only its
parsed structure is represented. -/
inductive PyStr where
  | token (alg : String) (payload : Claims) (sig : Sig)
  | raw (s : String)
deriving DecidableEq, Repr

/-- Model of a Python value produced by `json.loads`. -/
inductive PyVal where
  | none
  | bool (b : Bool)
  | int (n : Int)
  | str (s : PyStr)
  | list (xs : List PyVal)
  | dict (fields : List (String × PyVal))

/-- Python `data.get(k)` on a dict: the value bound to `k`, or `None` when
the key is absent. -/
def dictGet (fields : List (String × PyVal)) (k : String) : PyVal :=
  match fields.lookup k with
  | some v => v
  | Option.none => PyVal.none

/-- Modelled from the spec: the external capability
`AuthenticateCredentials(username, password) -> UserIdentity | Failure`
(Django `authenticate`). Returns the stored user whose username and password
both match; `None` (here `Option.none`) when either credential is not a plain
string or no row matches. -/
def authenticate (store : List StoredUser) (username password : PyVal) :
    Option StoredUser :=
  match username, password with
  | PyVal.str (PyStr.raw u), PyVal.str (PyStr.raw p) =>
      store.find? (fun su => su.username == u && su.password == p)
  | _, _ => Option.none

/-- Modelled from the spec: the external `UserIdentity` lookup by numeric id
(Django `User.objects.get(id=...)`). -/
def getUserById (store : List StoredUser) (i : Int) : Option StoredUser :=
  store.find? (fun su => su.id == i)

/-- The typed failures of the claims codec, spec section 4.1. In PyJWT these
are `ExpiredSignatureError` and `InvalidTokenError`. -/
inductive JwtError where
  | expiredSignature
  | invalidToken
deriving DecidableEq, Repr

/-- Uncaught Python exceptions the views can raise. -/
inductive PyError where
  | attributeError
  | doesNotExist
deriving DecidableEq, Repr

/-- Modelled from the spec: `Issue(identity, ttl)` of section 4.2 - build
Claims with `expires_at = now + ttl` and sign them under `key` with the
configured algorithm. The source fixes `ttl` to one hour at every call site;
`issue` keeps it as the parameter the spec gives it. -/
def issue (key : String) (user : StoredUser) (ttl : Int) (now : Int) : PyStr :=
  PyStr.token "HS256" ⟨user.id, user.username, now + ttl⟩
    (sign key ⟨user.id, user.username, now + ttl⟩)

/-- `generate_jwt` from `src/fluffy/apps/oauth/views.py`: payload
`user_id`, `username`, `exp = utcnow + 1 hour`, encoded with HS256 under the
process-wide secret key (here the explicit `key` argument). -/
def generate_jwt (key : String) (user : StoredUser) (now : Int) : PyStr :=
  issue key user 3600 now

/-- Modelled from the spec: `Decode(token, secretKey)` of section 4.1
(PyJWT `jwt.decode(token, key, algorithms=["HS256"])`). A non-string or
unparseable value, a token whose header algorithm differs from the single
accepted one, or a signature that does not verify under `key`, is
`InvalidToken`; a structurally valid, correctly signed token whose `exp` has
passed is `ExpiredSignature`; otherwise the payload is returned. -/
def jwt_decode (tok : PyVal) (key : String) (now : Int) :
    Except JwtError Claims :=
  match tok with
  | PyVal.str (PyStr.token alg payload sig) =>
      if alg ≠ "HS256" then Except.error JwtError.invalidToken
      else if sig ≠ sign key payload then Except.error JwtError.invalidToken
      else if payload.exp ≤ now then Except.error JwtError.expiredSignature
      else Except.ok payload
  | _ => Except.error JwtError.invalidToken

/-- An HTTP response: status code and JSON body (`JsonResponse`). -/
structure HttpResponse where
  status : Nat
  body : PyVal

/-- The 400 body both views return for a `json.JSONDecodeError`. -/
def invalidJsonResponse : HttpResponse :=
  ⟨400, PyVal.dict [("error", PyVal.str (PyStr.raw "Invalid JSON"))]⟩

/-- The 401 body `login` returns when authentication fails. -/
def unauthorizedLoginResponse : HttpResponse :=
  ⟨401, PyVal.dict
    [("error", PyVal.str (PyStr.raw "Unauthorized")),
     ("message", PyVal.str (PyStr.raw "Invalid credentials."))]⟩

/-- The 401 body `refresh_token` returns on `ExpiredSignatureError`. -/
def expiredRefreshResponse : HttpResponse :=
  ⟨401, PyVal.dict
    [("error", PyVal.str (PyStr.raw "Unauthorized")),
     ("message", PyVal.str (PyStr.raw "Refresh token has expired."))]⟩

/-- The 401 body `refresh_token` returns on `InvalidTokenError`. -/
def invalidRefreshResponse : HttpResponse :=
  ⟨401, PyVal.dict
    [("error", PyVal.str (PyStr.raw "Unauthorized")),
     ("message", PyVal.str (PyStr.raw "Invalid refresh token."))]⟩

/-- The `login` view. `body` is the outcome of `json.loads(request.body)`:
`Except.error ()` models a `json.JSONDecodeError`. The second component
counts credential-store operations (here: calls to `authenticate`). Calling
`.get` on a parsed body that is not a dict raises `AttributeError`, which no
`except` clause catches. -/
def login (key : String) (store : List StoredUser) (body : Except Unit PyVal)
    (now : Int) : Except PyError HttpResponse × Nat :=
  match body with
  | Except.error _ => (Except.ok invalidJsonResponse, 0)
  | Except.ok (PyVal.dict fields) =>
      let username := dictGet fields "username"
      let password := dictGet fields "password"
      match authenticate store username password with
      | some user =>
          (Except.ok ⟨200, PyVal.dict
            [("access_token", PyVal.str (generate_jwt key user now)),
             ("refresh_token", PyVal.str (generate_jwt key user now)),
             ("token_type", PyVal.str (PyStr.raw "bearer")),
             ("expires_in", PyVal.int 3600)]⟩, 1)
      | Option.none => (Except.ok unauthorizedLoginResponse, 1)
  | Except.ok _ => (Except.error PyError.attributeError, 0)

/-- The `logout` view: unconditionally acknowledge; the body is never read,
no token state exists to mutate, and no store operation is performed. -/
def logout (_body : Except Unit PyVal) : Except PyError HttpResponse × Nat :=
  (Except.ok ⟨200, PyVal.dict
    [("message", PyVal.str (PyStr.raw "Logged out successfully."))]⟩, 0)

/-- The `refresh_token` view. Parse failure gives 400; a non-dict body raises
`AttributeError`; the token under the "refresh_token" key is decoded, with
`ExpiredSignatureError` and `InvalidTokenError` mapped to their 401 bodies;
on success the user row is fetched by `payload["user_id"]` (raising
`User.DoesNotExist`, uncaught, when absent - counted as a store operation)
and a fresh access token is minted. -/
def refresh_token (key : String) (store : List StoredUser)
    (body : Except Unit PyVal) (now : Int) :
    Except PyError HttpResponse × Nat :=
  match body with
  | Except.error _ => (Except.ok invalidJsonResponse, 0)
  | Except.ok (PyVal.dict fields) =>
      let tok := dictGet fields "refresh_token"
      match jwt_decode tok key now with
      | Except.ok payload =>
          match getUserById store payload.user_id with
          | some user =>
              (Except.ok ⟨200, PyVal.dict
                [("access_token", PyVal.str (generate_jwt key user now)),
                 ("token_type", PyVal.str (PyStr.raw "bearer")),
                 ("expires_in", PyVal.int 3600)]⟩, 1)
          | Option.none => (Except.error PyError.doesNotExist, 1)
      | Except.error JwtError.expiredSignature =>
          (Except.ok expiredRefreshResponse, 0)
      | Except.error JwtError.invalidToken =>
          (Except.ok invalidRefreshResponse, 0)
  | Except.ok _ => (Except.error PyError.attributeError, 0)

/-- C1: decoding a token produced by the issuer under the same secret key,
before its ttl elapses, succeeds and returns exactly the encoded claims:
`user_id = identity.id`, `username = identity.username`,
`expires_at = issuance time + ttl`; in particular this holds for
`generate_jwt`, whose ttl is the source's fixed one hour. -/
theorem decode_issue_roundtrip (key : String) (user : StoredUser)
    (ttl now : Int) (h : 0 < ttl) :
    jwt_decode (PyVal.str (issue key user ttl now)) key now
      = Except.ok ⟨user.id, user.username, now + ttl⟩ ∧
    jwt_decode (PyVal.str (generate_jwt key user now)) key now
      = Except.ok ⟨user.id, user.username, now + 3600⟩ := by
  constructor
  · simp [jwt_decode, issue, sign]
    try omega
  · simp [jwt_decode, generate_jwt, issue, sign]
    try omega

/-- Witness for C1 at a concrete identity, ttl and instant. -/
theorem decode_issue_roundtrip_witness :
    jwt_decode (PyVal.str (issue "k" ⟨1, "alice", "pw"⟩ 3600 0)) "k" 0
      = Except.ok ⟨1, "alice", 0 + 3600⟩ ∧
    jwt_decode (PyVal.str (generate_jwt "k" ⟨1, "alice", "pw"⟩ 0)) "k" 0
      = Except.ok ⟨1, "alice", 0 + 3600⟩ :=
  decode_issue_roundtrip "k" ⟨1, "alice", "pw"⟩ 3600 0 (by decide)

/-- C2: any value that is not a correctly signed HS256 token under the
configured key - a non-string, an unparseable string, a token signed under a
different key or with any part of payload or signature altered (either way
its signature no longer verifies under `key`), or a token whose header names
another algorithm - decodes to `InvalidToken` (never success, never
`ExpiredSignature`), and `refresh_token` then answers 401
"Invalid refresh token.". -/
theorem invalid_token_rejected (key : String) (store : List StoredUser)
    (now : Int) (v : PyVal)
    (h : ∀ p : Claims, v ≠ PyVal.str (PyStr.token "HS256" p (sign key p))) :
    jwt_decode v key now = Except.error JwtError.invalidToken ∧
    refresh_token key store
        (Except.ok (PyVal.dict [("refresh_token", v)])) now
      = (Except.ok invalidRefreshResponse, 0) := by
  have hdec : jwt_decode v key now = Except.error JwtError.invalidToken := by
    cases v with
    | str s =>
        cases s with
        | token alg p sg =>
            by_cases halg : alg = "HS256"
            · subst halg
              by_cases hsig : sg = sign key p
              · exact absurd (by rw [hsig]) (h p)
              · simp [jwt_decode, hsig]
            · simp [jwt_decode, halg]
        | raw s => rfl
    | none => rfl
    | bool b => rfl
    | int n => rfl
    | list xs => rfl
    | dict fs => rfl
  refine ⟨hdec, ?_⟩
  simp [refresh_token, dictGet, List.lookup, hdec]

/-- Witness for C2 at a concrete malformed token. -/
theorem invalid_token_rejected_witness :
    jwt_decode (PyVal.str (PyStr.raw "garbage")) "k" 0
      = Except.error JwtError.invalidToken ∧
    refresh_token "k" []
        (Except.ok (PyVal.dict
          [("refresh_token", PyVal.str (PyStr.raw "garbage"))])) 0
      = (Except.ok invalidRefreshResponse, 0) :=
  invalid_token_rejected "k" [] 0 (PyVal.str (PyStr.raw "garbage"))
    (fun p => by simp)

/-- C3: a structurally valid token, correctly signed under the configured
key, whose expiry has passed decodes to `ExpiredSignature` - never
`InvalidToken` - and `refresh_token` then answers 401 with
"Refresh token has expired.", not "Invalid refresh token.". -/
theorem expired_token_rejected (key : String) (store : List StoredUser)
    (now : Int) (p : Claims) (h : p.exp ≤ now) :
    jwt_decode (PyVal.str (PyStr.token "HS256" p (sign key p))) key now
      = Except.error JwtError.expiredSignature ∧
    refresh_token key store
        (Except.ok (PyVal.dict [("refresh_token",
          PyVal.str (PyStr.token "HS256" p (sign key p)))])) now
      = (Except.ok expiredRefreshResponse, 0) := by
  have hdec : jwt_decode (PyVal.str (PyStr.token "HS256" p (sign key p)))
      key now = Except.error JwtError.expiredSignature := by
    simp [jwt_decode, h]
  exact ⟨hdec, by simp [refresh_token, dictGet, List.lookup, hdec]⟩

/-- Witness for C3 at a concrete expired token. -/
theorem expired_token_rejected_witness :
    jwt_decode (PyVal.str (PyStr.token "HS256" ⟨1, "alice", 5⟩
        (sign "k" ⟨1, "alice", 5⟩))) "k" 10
      = Except.error JwtError.expiredSignature ∧
    refresh_token "k" []
        (Except.ok (PyVal.dict [("refresh_token",
          PyVal.str (PyStr.token "HS256" ⟨1, "alice", 5⟩
            (sign "k" ⟨1, "alice", 5⟩)))])) 10
      = (Except.ok expiredRefreshResponse, 0) :=
  expired_token_rejected "k" [] 10 ⟨1, "alice", 5⟩ (by decide)

/-- Helper: `authenticate` returns no identity whenever the password
argument is Python `None`, whatever the username argument is. -/
theorem authenticate_password_none (store : List StoredUser) (v : PyVal) :
    authenticate store v PyVal.none = Option.none := by
  cases v with
  | none => rfl
  | bool b => rfl
  | int n => rfl
  | str s =>
      cases s with
      | token a p g => rfl
      | raw s => rfl
  | list xs => rfl
  | dict fs => rfl

/-- C4: a login with an existing username but wrong password and a login with
a username unknown to the store produce equal responses - both the 401 body
with error "Unauthorized" and message "Invalid credentials." - so the two
failure causes are indistinguishable to the caller (`JsonResponse`
serialization is a function of the body value, so equal values are
byte-identical). -/
theorem login_failure_indistinguishable (key : String)
    (store : List StoredUser) (now : Int) (u1 p1 u2 p2 : String)
    (_h1 : ∃ su ∈ store, su.username = u1)
    (h2 : ∀ su ∈ store, su.username = u1 → su.password ≠ p1)
    (h3 : ∀ su ∈ store, su.username ≠ u2) :
    login key store (Except.ok (PyVal.dict
        [("username", PyVal.str (PyStr.raw u1)),
         ("password", PyVal.str (PyStr.raw p1))])) now
      = login key store (Except.ok (PyVal.dict
        [("username", PyVal.str (PyStr.raw u2)),
         ("password", PyVal.str (PyStr.raw p2))])) now ∧
    login key store (Except.ok (PyVal.dict
        [("username", PyVal.str (PyStr.raw u1)),
         ("password", PyVal.str (PyStr.raw p1))])) now
      = (Except.ok unauthorizedLoginResponse, 1) := by
  have ha1 : authenticate store (PyVal.str (PyStr.raw u1))
      (PyVal.str (PyStr.raw p1)) = Option.none := by
    rw [authenticate, List.find?_eq_none]
    intro su hmem
    simp only [Bool.and_eq_true, beq_iff_eq, not_and]
    exact fun hu hp => h2 su hmem hu hp
  have ha2 : authenticate store (PyVal.str (PyStr.raw u2))
      (PyVal.str (PyStr.raw p2)) = Option.none := by
    rw [authenticate, List.find?_eq_none]
    intro su hmem
    simp only [Bool.and_eq_true, beq_iff_eq, not_and]
    exact fun hu _ => absurd hu (h3 su hmem)
  constructor
  · simp [login, dictGet, List.lookup, ha1, ha2]
  · simp [login, dictGet, List.lookup, ha1]

/-- Witness for C4: a one-user store, a wrong-password attempt and an
unknown-username attempt. -/
theorem login_failure_indistinguishable_witness :
    login "k" [⟨1, "alice", "pw"⟩] (Except.ok (PyVal.dict
        [("username", PyVal.str (PyStr.raw "alice")),
         ("password", PyVal.str (PyStr.raw "wrong"))])) 0
      = login "k" [⟨1, "alice", "pw"⟩] (Except.ok (PyVal.dict
        [("username", PyVal.str (PyStr.raw "bob")),
         ("password", PyVal.str (PyStr.raw "pw"))])) 0 ∧
    login "k" [⟨1, "alice", "pw"⟩] (Except.ok (PyVal.dict
        [("username", PyVal.str (PyStr.raw "alice")),
         ("password", PyVal.str (PyStr.raw "wrong"))])) 0
      = (Except.ok unauthorizedLoginResponse, 1) :=
  login_failure_indistinguishable "k" [⟨1, "alice", "pw"⟩] 0
    "alice" "wrong" "bob" "pw"
    ⟨⟨1, "alice", "pw"⟩, by simp⟩ (by decide) (by decide)

/-- C5: a body that fails to parse as JSON makes both `login` and
`refresh_token` answer 400 with body error "Invalid JSON", and neither view
performs any credential-store operation (the call count is 0). -/
theorem malformed_body_rejected (key : String) (store : List StoredUser)
    (now : Int) (e : Unit) :
    login key store (Except.error e) now = (Except.ok invalidJsonResponse, 0) ∧
    refresh_token key store (Except.error e) now
      = (Except.ok invalidJsonResponse, 0) :=
  ⟨rfl, rfl⟩

/-- C6: a refresh whose token decodes successfully and whose `user_id`
resolves to a stored identity answers 200 with body exactly
access_token, token_type "bearer" and expires_in 3600 - a single freshly
minted access token and no refresh_token key, so refresh tokens are not
rotated. -/
theorem refresh_success (key : String) (store : List StoredUser) (now : Int)
    (fields : List (String × PyVal)) (p : Claims) (user : StoredUser)
    (hdec : jwt_decode (dictGet fields "refresh_token") key now
      = Except.ok p)
    (huser : getUserById store p.user_id = some user) :
    refresh_token key store (Except.ok (PyVal.dict fields)) now
      = (Except.ok ⟨200, PyVal.dict
          [("access_token", PyVal.str (generate_jwt key user now)),
           ("token_type", PyVal.str (PyStr.raw "bearer")),
           ("expires_in", PyVal.int 3600)]⟩, 1) := by
  simp [refresh_token, hdec, huser]

/-- Witness for C6: a valid unexpired refresh token for a stored user. -/
theorem refresh_success_witness :
    refresh_token "k" [⟨1, "alice", "pw"⟩]
        (Except.ok (PyVal.dict [("refresh_token",
          PyVal.str (PyStr.token "HS256" ⟨1, "alice", 10⟩
            (sign "k" ⟨1, "alice", 10⟩)))])) 0
      = (Except.ok ⟨200, PyVal.dict
          [("access_token",
            PyVal.str (generate_jwt "k" ⟨1, "alice", "pw"⟩ 0)),
           ("token_type", PyVal.str (PyStr.raw "bearer")),
           ("expires_in", PyVal.int 3600)]⟩, 1) :=
  refresh_success "k" [⟨1, "alice", "pw"⟩] 0
    [("refresh_token", PyVal.str (PyStr.token "HS256" ⟨1, "alice", 10⟩
      (sign "k" ⟨1, "alice", 10⟩)))]
    ⟨1, "alice", 10⟩ ⟨1, "alice", "pw"⟩ (by rfl) (by rfl)

/-- C7: every payload the issuer constructs carries
`exp = issuance time + 3600`, strictly in the future of the issuance
instant, and on a successful login both the access token and the refresh
token are the identical `generate_jwt` issuance with that same 1-hour
lifetime. -/
theorem issuer_expiry_invariant (key : String) (store : List StoredUser)
    (now : Int) (fields : List (String × PyVal)) (user : StoredUser)
    (hauth : authenticate store (dictGet fields "username")
      (dictGet fields "password") = some user) :
    generate_jwt key user now
      = PyStr.token "HS256" ⟨user.id, user.username, now + 3600⟩
          (sign key ⟨user.id, user.username, now + 3600⟩) ∧
    now < now + 3600 ∧
    login key store (Except.ok (PyVal.dict fields)) now
      = (Except.ok ⟨200, PyVal.dict
          [("access_token", PyVal.str (generate_jwt key user now)),
           ("refresh_token", PyVal.str (generate_jwt key user now)),
           ("token_type", PyVal.str (PyStr.raw "bearer")),
           ("expires_in", PyVal.int 3600)]⟩, 1) := by
  refine ⟨rfl, by omega, ?_⟩
  simp [login, hauth]

/-- Witness for C7: a successful login against a one-user store. -/
theorem issuer_expiry_invariant_witness :
    generate_jwt "k" ⟨1, "alice", "pw"⟩ 0
      = PyStr.token "HS256" ⟨1, "alice", 0 + 3600⟩
          (sign "k" ⟨1, "alice", 0 + 3600⟩) ∧
    (0 : Int) < 0 + 3600 ∧
    login "k" [⟨1, "alice", "pw"⟩] (Except.ok (PyVal.dict
        [("username", PyVal.str (PyStr.raw "alice")),
         ("password", PyVal.str (PyStr.raw "pw"))])) 0
      = (Except.ok ⟨200, PyVal.dict
          [("access_token",
            PyVal.str (generate_jwt "k" ⟨1, "alice", "pw"⟩ 0)),
           ("refresh_token",
            PyVal.str (generate_jwt "k" ⟨1, "alice", "pw"⟩ 0)),
           ("token_type", PyVal.str (PyStr.raw "bearer")),
           ("expires_in", PyVal.int 3600)]⟩, 1) :=
  issuer_expiry_invariant "k" [⟨1, "alice", "pw"⟩] 0
    [("username", PyVal.str (PyStr.raw "alice")),
     ("password", PyVal.str (PyStr.raw "pw"))]
    ⟨1, "alice", "pw"⟩ (by rfl)

/-- C10: a login body that is a JSON object missing the "username" or
"password" key reaches the authenticator with Python `None` for the missing
field (via `data.get`), which authenticates no one, so the view answers the
401 "Invalid credentials." response - not a 400 - and the store call is
made (count 1). -/
theorem login_missing_field_unauthorized (key : String)
    (store : List StoredUser) (now : Int) (fields : List (String × PyVal))
    (h : fields.lookup "username" = Option.none ∨
      fields.lookup "password" = Option.none) :
    login key store (Except.ok (PyVal.dict fields)) now
      = (Except.ok unauthorizedLoginResponse, 1) := by
  have hauth : authenticate store (dictGet fields "username")
      (dictGet fields "password") = Option.none := by
    rcases h with h | h
    · have hu : dictGet fields "username" = PyVal.none := by
        simp [dictGet, h]
      rw [hu]
      rfl
    · have hp : dictGet fields "password" = PyVal.none := by
        simp [dictGet, h]
      rw [hp]
      exact authenticate_password_none store _
  simp [login, hauth]

/-- Witness for C10: a body with only a password key. -/
theorem login_missing_field_unauthorized_witness :
    login "k" [⟨1, "alice", "pw"⟩]
        (Except.ok (PyVal.dict [("password", PyVal.str (PyStr.raw "pw"))])) 0
      = (Except.ok unauthorizedLoginResponse, 1) :=
  login_missing_field_unauthorized "k" [⟨1, "alice", "pw"⟩] 0
    [("password", PyVal.str (PyStr.raw "pw"))] (Or.inl (by rfl))

/-- C8: for every request body - parse failure included - `logout` returns
200 with body message "Logged out successfully.", performs no credential-store
operation, and (the model being stateless per request) mutates no token
state. -/
theorem logout_unconditional (body : Except Unit PyVal) :
    logout body = (Except.ok ⟨200, PyVal.dict
      [("message", PyVal.str (PyStr.raw "Logged out successfully."))]⟩, 0) :=
  rfl

/-- C9: a body that is valid JSON but not a JSON object (here the JSON string
"abc") makes both `login` and `refresh_token` raise an uncaught
`AttributeError` from `data.get` - neither the 400 response nor any 401
response is produced. -/
theorem nonobject_json_raises :
    login "k" [] (Except.ok (PyVal.str (PyStr.raw "abc"))) 0
      = (Except.error PyError.attributeError, 0) ∧
    refresh_token "k" [] (Except.ok (PyVal.str (PyStr.raw "abc"))) 0
      = (Except.error PyError.attributeError, 0) :=
  ⟨rfl, rfl⟩

end Fluffy
